import Mathlib

/-!
Verification of the enclosure-management subsystem of this repository
(`src/middlewared/middlewared/plugins/enclosure.py`).

The Python source is shallowly embedded below: pure helpers become Lean
functions, filesystem / SCSI / RPC reads become explicit inputs, Python
exceptions become `Option`/`Except` results, and machine integers are
modelled with `Nat`/`Int`.  Definitions keep the source's names where Lean
allows it (leading underscores dropped).  Python regular expressions used
by the source are modelled by explicit character-list matchers that follow
`re.match` semantics (anchored at the start, greedy with backtracking).

The file is laid out as definitions first, then theorems.
-/

set_option maxRecDepth 100000

namespace Enc

/-! ### Character and string helpers -/

/-- Python `\s` character class (the characters relevant to single lines). -/
def isWsChar (c : Char) : Bool :=
  c = ' ' || c = '\t' || c = '\n' || c = '\r' || c = '\x0b' || c = '\x0c'

/-- Substring containment on character lists (Python `in` on `str`). -/
def containsSub (s pat : List Char) : Bool :=
  match s with
  | [] => pat.isEmpty
  | _ :: t => pat.isPrefixOf s || containsSub t pat

/-- Python `pat in s` for strings. -/
def strContains (s pat : String) : Bool :=
  containsSub s.toList pat.toList

/-- Python `str.removeprefix`. -/
def removePfx (s p : String) : String :=
  if p.toList.isPrefixOf s.toList then (s.toList.drop p.toList.length).asString else s

/-- Python `str.startswith` for a single pattern. -/
def startsWithPy (s p : String) : Bool :=
  p.toList.isPrefixOf s.toList

/-- Python `str.split()` (split on whitespace runs, dropping empties);
`cur` carries the current word reversed. -/
def splitWsAux : List Char → List Char → List (List Char)
  | [], cur => if cur.isEmpty then [] else [cur.reverse]
  | c :: rest, cur =>
    if isWsChar c then
      (if cur.isEmpty then splitWsAux rest [] else cur.reverse :: splitWsAux rest [])
    else splitWsAux rest (c :: cur)

/-- Python `value.split(' ')` (single-space separator, empties kept). -/
def splitOnSpace : List Char → List (List Char)
  | [] => [[]]
  | c :: rest =>
    let r := splitOnSpace rest
    if c = ' ' then [] :: r
    else
      match r with
      | [] => [[c]]
      | h :: t => (c :: h) :: t

/-- Python `word[0].upper() + word[1:]`. -/
def titleWordL (w : List Char) : String :=
  match w with
  | [] => ""
  | c :: rest => (Char.toUpper c :: rest).asString

/-- Python `" ".join(ws)`. -/
def joinWithSpace (ws : List String) : String :=
  match ws with
  | [] => ""
  | h :: t => t.foldl (fun acc w => acc ++ " " ++ w) h

/-- Python `s.replace("0x", "")`: delete every occurrence of `0x`,
scanning left to right. -/
def strip0x : List Char → List Char
  | [] => []
  | '0' :: 'x' :: rest => strip0x rest
  | c :: rest => c :: strip0x rest

/-- Value of one hexadecimal digit (as accepted by Python `int(_, 16)`). -/
def hexDigitVal (c : Char) : Option Nat :=
  if c.isDigit then some (c.toNat - 48)
  else if 'a' ≤ c && c ≤ 'f' then some (c.toNat - 87)
  else if 'A' ≤ c && c ≤ 'F' then some (c.toNat - 55)
  else none

/-- Accumulate hexadecimal digits; `none` on a non-digit (Python
`ValueError`). -/
def hexStrToNatAux : List Char → Nat → Option Nat
  | [], acc => some acc
  | c :: rest, acc =>
    match hexDigitVal c with
    | some d => hexStrToNatAux rest (acc * 16 + d)
    | none => none

/-- Python `int(i.replace("0x", ""), 16)`; `none` models `ValueError`
(empty or malformed token). -/
def parseHexTokenL (cs : List Char) : Option Nat :=
  let cs := strip0x cs
  if cs.isEmpty then none else hexStrToNatAux cs 0

/-- Decimal digits to a number (used only on all-digit captures). -/
def decDigitsToNat : List Char → Nat → Nat
  | [], acc => acc
  | c :: rest, acc => decDigitsToNat rest (acc * 10 + (c.toNat - 48))

/-- Collect a list of optional values; `none` if any element is `none`. -/
def sequenceOption {α : Type} : List (Option α) → Option (List α)
  | [] => some []
  | none :: _ => none
  | some a :: rest => (sequenceOption rest).map (a :: ·)

/-! ### `Enclosure._parse_raw_value` (enclosure.py lines 582-589)

The source folds up to four byte values into one packed word via
`newvalue |= v << (2 * (3 - i)) * 4`.  In Python a fifth element would
make the shift amount negative, which raises `ValueError`; that failure
is modelled by `none`. -/

def parseRawValueAux : Nat → Nat → List Nat → Option Nat
  | _, acc, [] => some acc
  | i, acc, v :: rest =>
    if i ≤ 3 then parseRawValueAux (i + 1) (acc ||| (v <<< ((2 * (3 - i)) * 4))) rest
    else none

/-- `Enclosure._parse_raw_value` on an already-decoded list of byte values. -/
def parse_raw_value (value : List Nat) : Option Nat :=
  parseRawValueAux 0 0 value

/-- `Enclosure._parse_raw_value` on a string argument: split on single
spaces, strip `0x`, parse hexadecimal, then pack. -/
def parse_raw_value_str (value : String) : Option Nat :=
  match sequenceOption ((splitOnSpace value.toList).map parseHexTokenL) with
  | some vals => parse_raw_value vals
  | none => none

/-- Byte-extraction formula quoted by the spec:
`(raw_value >> (2*(3-i))*4) & 0xff`. -/
def extractByte (raw i : Nat) : Nat :=
  (raw >>> ((2 * (3 - i)) * 4)) &&& 0xff

/-! ### The three recognized status-block line shapes
(`Enclosure._parse`, enclosure.py lines 405-437)

Shape 1: `re.match(r"\s+Element type: (.+), subenclosure", line)`.
`.+` is greedy, so the capture extends to the last occurrence of
`", subenclosure"`; the capture must be non-empty and the whole pattern
is anchored at the start of the line. -/
def matchElementType (line : String) : Option String :=
  let cs := line.toList
  if (cs.takeWhile isWsChar).isEmpty then none
  else
    let rest := cs.dropWhile isWsChar
    let pat := "Element type: ".toList
    if pat.isPrefixOf rest then
      let tail := rest.drop pat.length
      let sep := ", subenclosure".toList
      match (List.range (tail.length + 1)).reverse.find?
          (fun i => decide (1 ≤ i) && sep.isPrefixOf (tail.drop i)) with
      | some i => some (tail.take i).asString
      | none => none
    else none

/-- Shape 2: `re.match(r"\s+Element ([0-9]+) descriptor:", line)`,
returning the captured element index. -/
def matchElementDescriptor (line : String) : Option Nat :=
  let cs := line.toList
  if (cs.takeWhile isWsChar).isEmpty then none
  else
    let rest := cs.dropWhile isWsChar
    let pat := "Element ".toList
    if pat.isPrefixOf rest then
      let tail := rest.drop pat.length
      let digits := tail.takeWhile Char.isDigit
      if digits.isEmpty then none
      else if (" descriptor:".toList).isPrefixOf (tail.drop digits.length) then
        some (decDigitsToNat digits 0)
      else none
    else none

/-- Character class `[0-9a-f ]` of shape 3. -/
def hexClassChar (c : Char) : Bool :=
  c.isDigit || ('a' ≤ c && c ≤ 'f') || c = ' '

/-- Shape 3: `re.match(r"\s+([0-9a-f ]{11})", line)`.  `\s+` is greedy
but backtracks (a space may be consumed by the capture instead), so the
match uses the largest `k ≥ 1` such that the first `k` characters are
whitespace and the next 11 characters are all in `[0-9a-f ]`. -/
def matchHexLine (line : String) : Option String :=
  let cs := line.toList
  let m := (cs.takeWhile isWsChar).length
  ((List.range (m + 1)).reverse.find? (fun k =>
      decide (1 ≤ k) && decide ((cs.drop k).length ≥ 11) &&
        ((cs.drop k).take 11).all hexClassChar)).map
    (fun k => ((cs.drop k).take 11).asString)

/-- Element-type title-casing performed in the shape-1 branch
(enclosure.py lines 411-417): every word gets its first letter
upper-cased unless the raw capture is exactly `"Audible alarm"`, and
`"Temperature Sensor"` is renamed to `"Temperature Sensors"`. -/
def transformTypeName (t : String) : String :=
  let t1 :=
    if t = "Audible alarm" then t
    else joinWithSpace ((splitWsAux t.toList []).map titleWordL)
  if t1 = "Temperature Sensor" then "Temperature Sensors" else t1

/-- Python `s.replace(pat, "")` (delete all occurrences, left to right);
the fuel argument is the length of the remaining input. -/
def replaceDropAux (pat : List Char) : Nat → List Char → List Char
  | _, [] => []
  | 0, s => s
  | fuel + 1, c :: rest =>
    if pat ≠ [] && pat.isPrefixOf (c :: rest) then
      replaceDropAux pat fuel ((c :: rest).drop pat.length)
    else c :: replaceDropAux pat fuel rest

/-- Python `s.replace(p, "")`. -/
def removeAll (s p : String) : String :=
  (replaceDropAux p.toList s.toList.length s.toList).asString

/-- Python `str.strip()`. -/
def trimWs (cs : List Char) : List Char :=
  ((cs.dropWhile isWsChar).reverse.dropWhile isWsChar).reverse

/-- Python `value.split(sep)` for a one-character separator
(empties kept). -/
def splitOnChar (sep : Char) : List Char → List (List Char)
  | [] => [[]]
  | c :: rest =>
    let r := splitOnChar sep rest
    if c = sep then [] :: r
    else
      match r with
      | [] => [[c]]
      | h :: t => (c :: h) :: t

/-! ### Element model (enclosure.py lines 674-1236)

The duck-typed element classes are embedded as one record.  `value_raw`
is either a packed integer or an operating-system status string
(`RawVal`); the `_identify`/`_fault` attributes that Python sets only in
string mode are carried as options and, exactly like the source, are
consulted only in string mode. -/

inductive RawVal where
  | int (n : Nat)
  | str (s : String)
deriving DecidableEq, Repr

structure Elem where
  name : String
  slot : Nat
  value_raw : RawVal
  descriptor : String
  devname : String
  osIdent : Option String
  osFault : Option String
deriving DecidableEq, Repr

/-- `ArrayDevSlot.__init__` device-name cleanup (lines 1066-1072):
`[y for y in dev.strip().split(',') if not y.startswith('pass')]`,
first entry or the empty string. -/
def adsDevname (dev : String) : String :=
  match (splitOnChar ',' (trimWs dev.toList)).filter
      (fun y => !(("pass".toList).isPrefixOf y)) with
  | [] => ""
  | y :: _ => y.asString

/-- `ArrayDevSlot.identify` (lines 1090-1097): in string mode the flag is
the literal test `self._identify != '0'` (a missing attribute value
`None` also compares unequal to `'0'`); in packed mode it is bit `0x2`
of `value_raw >> 8`. -/
def ArrayDevSlot.identify (e : Elem) : Bool :=
  match e.value_raw with
  | .str _ =>
    match e.osIdent with
    | some s => s != "0"
    | none => true
  | .int n => decide ((n >>> 8) &&& 0x2 ≠ 0)

/-- `ArrayDevSlot.fault` (lines 1099-1106): string mode tests
`self._fault != '0'`; packed mode tests bit `0x20` of `value_raw`. -/
def ArrayDevSlot.fault (e : Elem) : Bool :=
  match e.value_raw with
  | .str _ =>
    match e.osFault with
    | some s => s != "0"
    | none => true
  | .int n => decide (n &&& 0x20 ≠ 0)

/-- `Enclosure._enclosure_element` (lines 602-634): dispatch on the
kind name.  The `status` argument is unused by the source as well.  For
`"Array Device Slot"` the two model-specific exclusions apply: a name
starting `'ECStream 3U16+4R-4X6G.3'` drops slots above 16, and a model
starting `'R50, '` drops slots from 25 up; both return `None`
(here `none`).  The dispatch key `"Temperature Sensors"` constructs an
element whose class name is the singular `"Temperature Sensor"`. -/
def enclosure_element (encname model : String) (slot : Nat) (name : String)
    (value : RawVal) (_status : Option String) (desc : String) (dev : String)
    (ident fault : Option String) : Option Elem :=
  if name = "Audible alarm" then some ⟨"Audible alarm", slot, value, desc, "", none, none⟩
  else if name = "Communication Port" then
    some ⟨"Communication Port", slot, value, desc, "", none, none⟩
  else if name = "Current Sensor" then
    some ⟨"Current Sensor", slot, value, desc, "", none, none⟩
  else if name = "Enclosure" then some ⟨"Enclosure", slot, value, desc, "", none, none⟩
  else if name = "Voltage Sensor" then
    some ⟨"Voltage Sensor", slot, value, desc, "", none, none⟩
  else if name = "Cooling" then some ⟨"Cooling", slot, value, desc, "", none, none⟩
  else if name = "Temperature Sensors" then
    some ⟨"Temperature Sensor", slot, value, desc, "", none, none⟩
  else if name = "Power Supply" then some ⟨"Power Supply", slot, value, desc, "", none, none⟩
  else if name = "Array Device Slot" then
    if startsWithPy encname "ECStream 3U16+4R-4X6G.3" && decide (slot > 16) then none
    else if startsWithPy model "R50, " && decide (slot ≥ 25) then none
    else some ⟨"Array Device Slot", slot, value, desc, adsDevname dev, ident, fault⟩
  else if name = "SAS Connector" then some ⟨"SAS Connector", slot, value, desc, "", none, none⟩
  else if name = "SAS Expander" then some ⟨"SAS Expander", slot, value, desc, "", none, none⟩
  else some ⟨name, slot, value, desc, "", none, none⟩

/-! ### Status-block walk (`Enclosure._parse`, lines 405-437)

Two pieces of loop-carried state.  The `all((element_type,
element_number, element_type != 'Array Device Slot'))` guard uses Python
truthiness: a `None` or empty type and a `None` or zero number are both
falsy.  A `ValueError` escaping `_parse_raw_value` is an `Except.error`. -/

structure WalkState where
  element_type : Option String
  element_number : Option Nat
deriving DecidableEq, Repr

def parse_step (encname model : String) (st : WalkState) (line : String) :
    Except String (WalkState × Option Elem) :=
  match matchElementType line with
  | some t =>
    .ok ({ element_type := some (transformTypeName t), element_number := none }, none)
  | none =>
    match matchElementDescriptor line with
    | some n => .ok ({ st with element_number := some n }, none)
    | none =>
      match matchHexLine line with
      | some grp =>
        match st.element_type, st.element_number with
        | some t, some n =>
          if t ≠ "" ∧ n ≠ 0 ∧ t ≠ "Array Device Slot" then
            match parse_raw_value_str grp with
            | some v =>
              .ok ({ st with element_number := none },
                enclosure_element encname model (n + 1) t (.int v) none "" "" none none)
            | none => .error "ValueError"
          else .ok ({ st with element_number := none }, none)
        | _, _ => .ok ({ st with element_number := none }, none)
      | none => .ok ({ st with element_number := none }, none)

/-- The whole status-block walk, returning the final state and the
elements appended by the generic byte path, in order. -/
def parse_status_walk (encname model : String) :
    WalkState → List String → Except String (WalkState × List Elem)
  | st, [] => .ok (st, [])
  | st, line :: rest =>
    match parse_step encname model st line with
    | .error e => .error e
    | .ok (st', out) =>
      match parse_status_walk encname model st' rest with
      | .error e => .error e
      | .ok (stf, elems) =>
        .ok (stf, match out with | some e => e :: elems | none => elems)

/-! ### Model classifier (`Enclosure._set_model`, lines 530-580)

Each `re.match` against an alternation of literals is an anchored-prefix
test, expanded here to the explicit list of admissible prefixes. -/

def m_series_match (s : String) : Bool :=
  ["ECStream 4024Sp", "ECStream 4024Ss", "iX 4024Sp", "iX 4024Ss"].any
    (fun p => startsWithPy s p)

def r_series_match (s : String) : Bool :=
  ["ECStream FS1", "ECStream FS2", "ECStream DSS212Sp", "ECStream DSS212Ss",
   "iX FS1", "iX FS2", "iX DSS212Sp", "iX DSS212Ss"].any (fun p => startsWithPy s p)

def r20_match (s : String) : Bool :=
  ["iX TrueNAS R20p", "iX 2012Sp", "SMC SC826-P"].any (fun p => startsWithPy s p)

def r50_match (s : String) : Bool :=
  ["iX eDrawer4048S1", "iX eDrawer4048S2"].any (fun p => startsWithPy s p)

def x_series_match (s : String) : Bool :=
  ["CELESTIC P3215-O", "CELESTIC P3217-B"].any (fun p => startsWithPy s p)

def es24_match (s : String) : Bool :=
  ["ECStream 4024J", "iX 4024J"].any (fun p => startsWithPy s p)

def es24f_match (s : String) : Bool :=
  ["ECStream 2024Jp", "ECStream 2024Js", "iX 2024Jp", "iX 2024Js"].any
    (fun p => startsWithPy s p)

def mini_match (s : String) : Bool :=
  ["TRUENAS-MINI", "FREENAS-MINI"].any (fun p => startsWithPy s p)

def R20_VARIANT : List String := ["TRUENAS-R20", "TRUENAS-R20A", "TRUENAS-R20B"]

/-- `Enclosure._set_model`: returns the `(model, controller)` pair
produced by the cascade, starting from the `__init__` defaults
`("", False)` (lines 386-387). -/
def set_model (encname product_name data : String) : String × Bool :=
  if m_series_match encname then ("M Series", true)
  else if r_series_match encname || r20_match encname || r50_match encname then
    (removeAll product_name "TRUENAS-", true)
  else if encname = "AHCI SGPIO Enclosure 2.00" then
    (if R20_VARIANT.contains product_name then (removeAll product_name "TRUENAS-", true)
     else if mini_match product_name then (product_name, true)
     else ("", true))
  else if x_series_match encname then ("X Series", true)
  else if startsWithPy encname "BROADCOM VirtualSES 03" then ("H Series", true)
  else if startsWithPy encname "QUANTA JB9 SIM" then ("E60", false)
  else if startsWithPy encname "Storage 1729" then ("E24", false)
  else if startsWithPy encname "ECStream 3U16+4R-4X6G.3" then
    (if strContains data "SD_9GV12P1J_12R6K4" then ("Z Series", true) else ("E16", false))
  else if startsWithPy encname "ECStream 3U16RJ-AC.r3" then ("E16", false)
  else if startsWithPy encname "HGST H4102-J" then ("ES102", false)
  else if startsWithPy encname "VikingES NDS-41022-BB" ||
      startsWithPy encname "VikingES VDS-41022-BB" then ("ES102G2", false)
  else if startsWithPy encname "CELESTIC R0904" then ("ES60", false)
  else if startsWithPy encname "HGST H4060-J" then ("ES60G2", false)
  else if es24_match encname then ("ES24", false)
  else if es24f_match encname then ("ES24F", false)
  else if startsWithPy encname "CELESTIC X2012" then ("ES12", false)
  else ("", false)

/-- Disjunction of the branch conditions of `_set_model` (all of them
test only the decoded enclosure name). -/
def matchesAnyModelRule (encname : String) : Bool :=
  m_series_match encname || r_series_match encname || r20_match encname ||
  r50_match encname || decide (encname = "AHCI SGPIO Enclosure 2.00") ||
  x_series_match encname || startsWithPy encname "BROADCOM VirtualSES 03" ||
  startsWithPy encname "QUANTA JB9 SIM" || startsWithPy encname "Storage 1729" ||
  startsWithPy encname "ECStream 3U16+4R-4X6G.3" ||
  startsWithPy encname "ECStream 3U16RJ-AC.r3" ||
  startsWithPy encname "HGST H4102-J" ||
  startsWithPy encname "VikingES NDS-41022-BB" ||
  startsWithPy encname "VikingES VDS-41022-BB" ||
  startsWithPy encname "CELESTIC R0904" || startsWithPy encname "HGST H4060-J" ||
  es24_match encname || es24f_match encname || startsWithPy encname "CELESTIC X2012"

/-! ### Slot-mapping reconciler
(`Enclosure.map_disks_to_enclosure_slots`, lines 439-528)

Filesystem reads become the `DirEntry` input: `files = none` models a
directory whose `slot`/`status`/`locate`/`fault` reads raise
(`FileNotFoundError`/`ValueError`, silently skipped), and the collected
per-slot data mirrors `mapping[slot] = (dev, slot_status, ident, fault)`.
The SES status map read for non-H-series platforms becomes the `ses`
input. -/

structure SlotFiles where
  slot : Nat
  status : String
  locate : String
  fault : String
  dev : String
deriving DecidableEq, Repr

structure DirEntry where
  name : String
  files : Option SlotFiles
deriving DecidableEq, Repr

structure SesElem where
  typ : Nat
  descriptor : String
  status : List Nat
deriving DecidableEq, Repr

/-- Python `dict` insertion: overwrite in place if the key exists,
append otherwise. -/
def dictInsert {α : Type} : List (Nat × α) → Nat → α → List (Nat × α)
  | [], k, v => [(k, v)]
  | (k', v') :: rest, k, v =>
    if k' = k then (k, v) :: rest else (k', v') :: dictInsert rest k v

/-- The directory loop (lines 466-493): skip H-series ignored ports
`('4','5','6','7')` and non-slot directories, otherwise record
`(dev, slot_status, ident, fault)` under the read slot number. -/
def collectMapping (is_hseries : Bool) (dirs : List DirEntry) :
    List (Nat × (String × String × String × String)) :=
  dirs.foldl (fun m d =>
    if is_hseries && ["4", "5", "6", "7"].contains d.name then m
    else
      match d.files with
      | none => m
      | some f => dictInsert m f.slot (f.dev, f.status, f.locate, f.fault)) []

/-- Python `sorted` over the mapping's keys. -/
def sortNatKeys (ks : List Nat) : List Nat :=
  List.insertionSort (· ≤ ·) ks

/-- The element-construction loop (lines 511-526) over sorted slots;
`none` models a propagating Python exception (`KeyError` on a missing
mapping entry, or `ValueError` from `_parse_raw_value`). -/
def buildElemsGo (is_hseries : Bool) (encname model : String)
    (mapping : List (Nat × (String × String × String × String)))
    (diskRaw : List (Nat × List Nat)) : List Nat → Option (List Elem)
  | [] => some []
  | k :: ks =>
    match List.lookup k mapping with
    | none => none
    | some (disk, slot_status, ident, fault) =>
      let info : Option (Option Elem) :=
        if is_hseries then
          some (enclosure_element encname model k "Array Device Slot" (.str slot_status)
            none "" disk (some ident) (some fault))
        else
          match parse_raw_value ((List.lookup k diskRaw).getD [5, 0, 0, 0]) with
          | some v =>
            some (enclosure_element encname model k "Array Device Slot" (.int v)
              none "" disk none none)
          | none => none
      match info with
      | none => none
      | some info =>
        match buildElemsGo is_hseries encname model mapping diskRaw ks with
        | none => none
        | some rest => some (match info with | some e => e :: rest | none => rest)

/-- The SES raw-byte map used on non-H-series platforms (lines 505-509):
type-23 entries with a non-`'<empty>'` descriptor, keyed by element
index; H-series platforms skip it. -/
def sesDiskRaw (is_hseries : Bool) (ses : List (Nat × SesElem)) : List (Nat × List Nat) :=
  if is_hseries then []
  else (ses.filter (fun p => p.2.typ == 23 && p.2.descriptor != "<empty>")).map
    (fun p => (p.1, p.2.status))

/-- One iteration of the element-construction loop (lines 511-526),
split by provenance: `k` indexes the collected (raw) mapping entry the
data comes from, `s` is the loop's slot value — the exposed slot number,
also used for the SES raw-byte lookup.  In the loop itself `k = s`
(both are the post-shift key); stated with separate indices so the
raw-entry-to-exposed-slot correspondence can be expressed.  `none`
covers both a dropped (excluded) element and a failing entry, which in
a successful run cannot occur. -/
def slotElemAt (is_hseries : Bool) (encname model : String)
    (mapping : List (Nat × (String × String × String × String)))
    (diskRaw : List (Nat × List Nat)) (k s : Nat) : Option Elem :=
  match List.lookup k mapping with
  | none => none
  | some (disk, slot_status, ident, fault) =>
    if is_hseries then
      enclosure_element encname model s "Array Device Slot" (.str slot_status)
        none "" disk (some ident) (some fault)
    else
      match parse_raw_value ((List.lookup s diskRaw).getD [5, 0, 0, 0]) with
      | some v =>
        enclosure_element encname model s "Array Device Slot" (.int v)
          none "" disk none none
      | none => none

/-- `Enclosure.map_disks_to_enclosure_slots`: returns the list of
`ArrayDevSlot` elements appended to the enclosure (`none` = a Python
exception escaped).  An empty mapping returns early with no elements
(the `ValueError` of `min` on an empty dict).  If the minimum collected
slot is 0 every key is shifted up by one.  On non-H-series platforms the
SES per-element status map supplies the raw bytes (type-23 entries with
a non-`'<empty>'` descriptor), with `[5, 0, 0, 0]` as the
default pattern. -/
def map_disks_to_enclosure_slots (is_hseries : Bool) (encname model : String)
    (dirs : List DirEntry) (ses : List (Nat × SesElem)) : Option (List Elem) :=
  let mapping := collectMapping is_hseries dirs
  match (mapping.map Prod.fst).min? with
  | none => some []
  | some mn =>
    let mapping := if mn = 0 then mapping.map (fun p => (p.1 + 1, p.2)) else mapping
    let diskRaw := sesDiskRaw is_hseries ses
    buildElemsGo is_hseries encname model mapping diskRaw (sortNatKeys (mapping.map Prod.fst))

/-! ### Enclosure collection and query ordering
(`EnclosureService.query`, lines 72-143)

Only the ordering/numbering/label pipeline is embedded; the per-element
dict assembly is orthogonal to the claims.  `map_nvme` (the synthetic
NVMe enclosures) and `map_enclosures` (the platform slot remapper) are
external collaborators and enter as inputs; `filter_list` with the empty
filter set is the identity.  Python's `sorted` is a stable ascending
sort by the key `(0 if controller else 1, id)`; string comparison is
code-point lexicographic, embedded as `strLtB`. -/

structure EncView where
  id : String
  name : String
  controller : Bool
  number : Nat
  label : String
deriving DecidableEq, Repr

/-- Lines 122-126: an enclosure whose name contains `"eDrawer4048S1"` is
`insert(0, ...)`-ed; every other one is appended. -/
def insertOrder (physical : List EncView) : List EncView :=
  physical.foldl (fun acc e =>
    if strContains e.name "eDrawer4048S1" then e :: acc else acc ++ [e]) []

/-- Lines 131-132: `enclosure["number"] = number` from `enumerate`,
before any sorting. -/
def assignNumbers (l : List EncView) : List EncView :=
  l.enum.map (fun p => { p.2 with number := p.1 })

/-- Lines 134-139: `labels.get(id) or name` (an absent or empty label
falls back to the name). -/
def applyLabels (labels : String → Option String) (l : List EncView) : List EncView :=
  l.map (fun e =>
    { e with label := match labels e.id with
        | some s => if s = "" then e.name else s
        | none => e.name })

/-- Code-point lexicographic strict comparison on strings (Python `<`
on `str`). -/
def strLtB : List Char → List Char → Bool
  | [], [] => false
  | [], _ :: _ => true
  | _ :: _, [] => false
  | a :: as, b :: bs =>
    if a.toNat < b.toNat then true
    else if b.toNat < a.toNat then false
    else strLtB as bs

def encKey1 (e : EncView) : Nat := if e.controller then 0 else 1

/-- Python tuple comparison `(0 if controller else 1, id) ≤ ...`. -/
def encLeB (a b : EncView) : Bool :=
  if encKey1 a < encKey1 b then true
  else if encKey1 b < encKey1 a then false
  else !(strLtB b.id.toList a.id.toList)

def encRel (a b : EncView) : Prop := encLeB a b = true

instance : DecidableRel encRel := fun a b => by unfold encRel; infer_instance

/-- The ordering/numbering part of `EnclosureService.query`: build the
insertion order, append the NVMe synthetics, apply the external
`map_enclosures`, number, merge labels, then sort (stable) by
`(0 if controller else 1, id)`. -/
def queryEnclosures (physical nvme : List EncView)
    (mapEnc : List EncView → List EncView) (labels : String → Option String) :
    List EncView :=
  List.insertionSort encRel (applyLabels labels (assignNumbers (mapEnc
    (insertOrder physical ++ nvme))))

/-! ### Slot-control dispatcher
(`EnclosureService.set_slot_status`, lines 229-280, and
`_get_orig_enclosure_and_disk`, lines 216-227)

The two NVMe backends and the sysfs toggle are external collaborators;
the result records which backend was invoked and, for the SCSI route,
the exact `set_control` calls issued as `(wire slot, action)` pairs.
`toggleMissing path mapped = true` models `toggle_enclosure_slot_identifier`
raising `FileNotFoundError`. -/

inductive SlotState where
  | CLEAR
  | FAULT
  | IDENTIFY
deriving DecidableEq, Repr

def SlotState.toStr : SlotState → String
  | .CLEAR => "CLEAR"
  | .FAULT => "FAULT"
  | .IDENTIFY => "IDENTIFY"

structure OrigRef where
  enclosure_bsg : String
  slot : Int
deriving DecidableEq, Repr

structure SlotEntry where
  slot : Int
  original : Option OrigRef
deriving DecidableEq, Repr

structure ElemGroup where
  name : String
  elements : List SlotEntry
deriving DecidableEq, Repr

structure EncInfo where
  id : String
  bsg : String
  model : String
  elements : List ElemGroup
deriving DecidableEq, Repr

/-- The H-series `sysfs_to_ui` literal table (lines 244-248). -/
def sysfs_to_ui : List (Int × String) :=
  [(1, "8"), (2, "9"), (3, "10"), (4, "11"),
   (5, "12"), (6, "13"), (7, "14"), (8, "15"),
   (9, "0"), (10, "1"), (11, "2"), (12, "3")]

/-- The nested loops of `_get_orig_enclosure_and_disk`: first matching
element of the first `'Array Device Slot'` group that contains one. -/
def findADSEntry (slot : Int) : List ElemGroup → Option SlotEntry
  | [] => none
  | g :: gs =>
    if g.name = "Array Device Slot" then
      match g.elements.find? (fun x => x.slot == slot) with
      | some j => some j
      | none => findADSEntry slot gs
    else findADSEntry slot gs

/-- `_get_orig_enclosure_and_disk`; `Except.error` is the `KeyError` a
`'mapped_enclosure_0'` element without an `original` record would raise,
`ok none` the fall-through `None`. -/
def get_orig_enclosure_and_disk (enclosure_id : String) (slot : Int) (info : EncInfo) :
    Except Unit (Option (String × Int)) :=
  match findADSEntry slot info.elements with
  | none => .ok none
  | some j =>
    if enclosure_id = "mapped_enclosure_0" then
      match j.original with
      | some o => .ok (some (o.enclosure_bsg, o.slot))
      | none => .error ()
    else .ok (some (info.bsg, slot))

inductive Route where
  | r30 (slot : Int) (status : SlotState)
  | fseries (slot : Int) (status : SlotState)
  | hseries (sysfs_path mapped_slot : String) (status : SlotState)
  | scsi (bsg : String) (actions : List (Int × String))
deriving DecidableEq, Repr

inductive SlotCallError where
  | encNotFound (id : String)
  | slotNotFound (slot : Int)
  | keyError
deriving DecidableEq, Repr

/-- Lines 268-271: `CLEAR` maps to both clear actions, otherwise one
`set={status[:5].lower()}` action; every action is addressed to
`original_slot - 1`. -/
def statusActions (status : SlotState) (k : Int) : List (Int × String) :=
  if status = .CLEAR then [(k, "clear=ident"), (k, "clear=fault")]
  else [(k, "set=" ++ ((status.toStr.toList.take 5).map Char.toLower).asString)]

/-- `EnclosureService.set_slot_status`.  `queryResult` is the enclosure
query output; the id filter of line 239 is applied here. -/
def set_slot_status (enclosure_id : String) (slot : Int) (status : SlotState)
    (queryResult : List EncInfo) (toggleMissing : String → String → Bool) :
    Except SlotCallError Route :=
  if enclosure_id = "r30_nvme_enclosure" then .ok (.r30 slot status)
  else if enclosure_id = "f60_nvme_enclosure" ∨ enclosure_id = "f100_nvme_enclosure" ∨
      enclosure_id = "f130_nvme_enclosure" then
    .ok (.fseries slot status)
  else
    match (queryResult.filter (fun i => i.id == enclosure_id)).head? with
    | none => .error (.encNotFound enclosure_id)
    | some info =>
      if info.model = "H Series" then
        match List.lookup slot sysfs_to_ui with
        | none => .error (.slotNotFound slot)
        | some mapped =>
          let addr := removePfx info.bsg "bsg/"
          let sysfs_path := "/sys/class/enclosure/" ++ addr
          if toggleMissing sysfs_path mapped then .error (.slotNotFound slot)
          else .ok (.hseries sysfs_path mapped status)
      else
        match get_orig_enclosure_and_disk enclosure_id slot info with
        | .error () => .error .keyError
        | .ok none => .error (.slotNotFound slot)
        | .ok (some (original_bsg, original_slot)) =>
          .ok (.scsi original_bsg (statusActions status (original_slot - 1)))

/-- Modelled from the spec: "may source its identify/fault flags from an
operating-system string (non-zero means active)" — whether a string
denotes a non-zero numeric value.  Used only to compare the spec's
reading against the code's literal `!= '0'` test. -/
def denotesNonZeroSpec (s : String) : Bool :=
  let cs := s.toList
  !cs.isEmpty && cs.all Char.isDigit && decide (decDigitsToNat cs 0 ≠ 0)

/-! ## Theorems -/

/-! ### Properties of the string order and of the query pipeline -/

theorem strLtB_total : ∀ x y, strLtB x y = false ∨ strLtB y x = false := by
  intro x
  induction x with
  | nil =>
    intro y
    right
    cases y <;> rfl
  | cons a as ih =>
    intro y
    cases y with
    | nil => left; rfl
    | cons b bs =>
      rcases Nat.lt_trichotomy a.toNat b.toNat with h | h | h
      · right; simp [strLtB, h, Nat.lt_asymm h]
      · rcases ih bs with h' | h'
        · left; simp [strLtB, h, Nat.lt_irrefl, h']
        · right; simp [strLtB, h, Nat.lt_irrefl, h']
      · left; simp [strLtB, h, Nat.lt_asymm h]

theorem strLtB_false_trans :
    ∀ x y z, strLtB y x = false → strLtB z y = false → strLtB z x = false := by
  intro x
  induction x with
  | nil =>
    intro y z h1 h2
    cases z <;> rfl
  | cons a as ih =>
    intro y z h1 h2
    cases y with
    | nil => exact absurd h1 (by simp [strLtB])
    | cons b bs =>
      cases z with
      | nil => exact absurd h2 (by simp [strLtB])
      | cons c cs =>
        rcases Nat.lt_trichotomy b.toNat a.toNat with hba | hba | hba
        · simp [strLtB, hba] at h1
        · rcases Nat.lt_trichotomy c.toNat b.toNat with hcb | hcb | hcb
          · simp [strLtB, hcb] at h2
          · have h1' : strLtB bs as = false := by
              simpa [strLtB, hba, Nat.lt_irrefl] using h1
            have h2' : strLtB cs bs = false := by
              simpa [strLtB, hcb, Nat.lt_irrefl] using h2
            have hca : ¬ c.toNat < a.toNat := by omega
            have hac : ¬ a.toNat < c.toNat := by omega
            simp [strLtB, hca, hac, ih bs cs h1' h2']
          · have hca : a.toNat < c.toNat := by omega
            simp [strLtB, hca, Nat.lt_asymm hca]
        · rcases Nat.lt_trichotomy c.toNat b.toNat with hcb | hcb | hcb
          · simp [strLtB, hcb] at h2
          · have hca : a.toNat < c.toNat := by omega
            simp [strLtB, hca, Nat.lt_asymm hca]
          · have hca : a.toNat < c.toNat := by omega
            simp [strLtB, hca, Nat.lt_asymm hca]

theorem encRel_total : ∀ a b : EncView, encRel a b ∨ encRel b a := by
  intro a b
  unfold encRel encLeB
  rcases Nat.lt_trichotomy (encKey1 a) (encKey1 b) with h | h | h
  · left; simp [h]
  · rcases strLtB_total b.id.toList a.id.toList with h' | h'
    · have h'' : strLtB b.id.data a.id.data = false := h'
      left; simp [h, Nat.lt_irrefl, h'']
    · have h'' : strLtB a.id.data b.id.data = false := h'
      right; simp [h, Nat.lt_irrefl, h'']
  · right; simp [h, Nat.lt_asymm h]

theorem encRel_trans : ∀ a b c : EncView, encRel a b → encRel b c → encRel a c := by
  intro a b c hab hbc
  unfold encRel encLeB at *
  rcases Nat.lt_trichotomy (encKey1 a) (encKey1 b) with h1 | h1 | h1
  · rcases Nat.lt_trichotomy (encKey1 b) (encKey1 c) with h2 | h2 | h2
    · simp [show encKey1 a < encKey1 c by omega]
    · simp [show encKey1 a < encKey1 c by omega]
    · simp [h2, Nat.lt_asymm h2] at hbc
  · rcases Nat.lt_trichotomy (encKey1 b) (encKey1 c) with h2 | h2 | h2
    · simp [show encKey1 a < encKey1 c by omega]
    · have hab' : strLtB b.id.toList a.id.toList = false := by
        simpa [h1, Nat.lt_irrefl] using hab
      have hbc' : strLtB c.id.toList b.id.toList = false := by
        simpa [h2, Nat.lt_irrefl] using hbc
      have hk : encKey1 a = encKey1 c := by omega
      have hca : strLtB c.id.data a.id.data = false :=
        strLtB_false_trans a.id.toList b.id.toList c.id.toList hab' hbc'
      simp [hk, Nat.lt_irrefl, hca]
    · simp [h2, Nat.lt_asymm h2] at hbc
  · simp [h1, Nat.lt_asymm h1] at hab

theorem insertOrder_fold (marker : EncView → Bool) :
    ∀ (l acc : List EncView),
    l.foldl (fun acc e => if marker e then e :: acc else acc ++ [e]) acc =
      (l.filter marker).reverse ++ acc ++ l.filter (fun e => !marker e) := by
  intro l
  induction l with
  | nil => intro acc; simp
  | cons e t ih =>
    intro acc
    by_cases h : marker e
    · simp [List.foldl_cons, h, ih (e :: acc), List.filter_cons]
    · simp [List.foldl_cons, h, ih (acc ++ [e]), List.filter_cons]

theorem insertOrder_eq (physical : List EncView) :
    insertOrder physical =
      (physical.filter (fun e => strContains e.name "eDrawer4048S1")).reverse ++
        physical.filter (fun e => !strContains e.name "eDrawer4048S1") := by
  unfold insertOrder
  simpa using insertOrder_fold (fun e => strContains e.name "eDrawer4048S1") physical []

theorem assignNumbers_get (l : List EncView) (i : Nat)
    (h : i < (assignNumbers l).length) :
    ((assignNumbers l).get ⟨i, h⟩).number = i := by
  have hlen : (assignNumbers l).length = l.length := by
    simp [assignNumbers]
  simp [assignNumbers, List.get_eq_getElem]

/-- C1, amended.  The claim as frozen fails on the code (see the
counterexample): `query` assigns `number` by enumeration *before* the
final `sorted(...)` call, and that final sort orders purely by
`(0 if controller else 1, id)`, so the first-expander exception governs
only the pre-sort insertion order in which numbers are assigned, not the
returned order.  Amended statement: (1) the returned collection is
sorted by controllers-before-non-controllers and then by `id`; (2) it is
a permutation of the labelled, numbered pre-sort list; (3) in the
pre-sort insertion order every enclosure whose name contains
`"eDrawer4048S1"` precedes every other enclosure (later markers first);
(4) `number` equals the 0-based position in the pre-sort order. -/
theorem claim_C1_amended :
    ∀ (physical nvme : List EncView) (mapEnc : List EncView → List EncView)
      (labels : String → Option String),
    List.Sorted encRel (queryEnclosures physical nvme mapEnc labels) ∧
    (queryEnclosures physical nvme mapEnc labels).Perm
      (applyLabels labels (assignNumbers (mapEnc (insertOrder physical ++ nvme)))) ∧
    insertOrder physical =
      (physical.filter (fun e => strContains e.name "eDrawer4048S1")).reverse ++
        physical.filter (fun e => !strContains e.name "eDrawer4048S1") ∧
    ∀ (i : Nat) (h : i < (assignNumbers (mapEnc (insertOrder physical ++ nvme))).length),
      ((assignNumbers (mapEnc (insertOrder physical ++ nvme))).get ⟨i, h⟩).number = i := by
  intro physical nvme mapEnc labels
  refine ⟨?_, ?_, insertOrder_eq physical, fun i h => assignNumbers_get _ i h⟩
  · haveI : IsTotal EncView encRel := ⟨encRel_total⟩
    haveI : IsTrans EncView encRel := ⟨fun a b c => encRel_trans a b c⟩
    exact List.sorted_insertionSort encRel _
  · exact List.perm_insertionSort encRel _

/-- C1, counterexample to the claim as frozen: a controller `"b"` and a
non-controller `"a"` whose name carries the first-expander marker.  In
the returned collection the marker enclosure sits at position 1, not 0,
and its `number` field is 0 while its 0-based position is 1 — so neither
"occupies position 0" nor "`number` equals its position in the final
sorted order" holds. -/
theorem claim_C1_counterexample :
    (queryEnclosures [⟨"b", "x", true, 0, ""⟩, ⟨"a", "iX eDrawer4048S1 y", false, 0, ""⟩]
        [] id (fun _ => none)).map (fun e => (e.id, e.number)) = [("b", 1), ("a", 0)] := by
  rfl

/-- C1 witness: the amended theorem applied at the counterexample's
input, with the numbering clause instantiated at index 0. -/
theorem claim_C1_witness :
    List.Sorted encRel (queryEnclosures
      [⟨"b", "x", true, 0, ""⟩, ⟨"a", "iX eDrawer4048S1 y", false, 0, ""⟩] [] id
      (fun _ => none)) ∧
    ((assignNumbers (id (insertOrder
        [⟨"b", "x", true, 0, ""⟩, ⟨"a", "iX eDrawer4048S1 y", false, 0, ""⟩] ++ []))).get
      ⟨0, by decide⟩).number = 0 :=
  ⟨(claim_C1_amended [⟨"b", "x", true, 0, ""⟩, ⟨"a", "iX eDrawer4048S1 y", false, 0, ""⟩]
      [] id (fun _ => none)).1,
   (claim_C1_amended [⟨"b", "x", true, 0, ""⟩, ⟨"a", "iX eDrawer4048S1 y", false, 0, ""⟩]
      [] id (fun _ => none)).2.2.2 0 (by decide)⟩

/-! ### The status-block walk (claims C2 and C10) -/

theorem enclosure_element_slot (encname model : String) (slot : Nat) (name : String)
    (value : RawVal) (status : Option String) (desc dev : String)
    (ident fault : Option String) (e : Elem) :
    enclosure_element encname model slot name value status desc dev ident fault = some e →
    e.slot = slot := by
  intro h
  unfold enclosure_element at h
  by_cases h1 : name = "Audible alarm"
  · rw [if_pos h1] at h; injection h with h; subst h; rfl
  rw [if_neg h1] at h
  by_cases h2 : name = "Communication Port"
  · rw [if_pos h2] at h; injection h with h; subst h; rfl
  rw [if_neg h2] at h
  by_cases h3 : name = "Current Sensor"
  · rw [if_pos h3] at h; injection h with h; subst h; rfl
  rw [if_neg h3] at h
  by_cases h4 : name = "Enclosure"
  · rw [if_pos h4] at h; injection h with h; subst h; rfl
  rw [if_neg h4] at h
  by_cases h5 : name = "Voltage Sensor"
  · rw [if_pos h5] at h; injection h with h; subst h; rfl
  rw [if_neg h5] at h
  by_cases h6 : name = "Cooling"
  · rw [if_pos h6] at h; injection h with h; subst h; rfl
  rw [if_neg h6] at h
  by_cases h7 : name = "Temperature Sensors"
  · rw [if_pos h7] at h; injection h with h; subst h; rfl
  rw [if_neg h7] at h
  by_cases h8 : name = "Power Supply"
  · rw [if_pos h8] at h; injection h with h; subst h; rfl
  rw [if_neg h8] at h
  by_cases h9 : name = "Array Device Slot"
  · rw [if_pos h9] at h
    by_cases h10 :
        (startsWithPy encname "ECStream 3U16+4R-4X6G.3" && decide (slot > 16)) = true
    · rw [if_pos h10] at h; exact Option.noConfusion h
    rw [if_neg h10] at h
    by_cases h11 : (startsWithPy model "R50, " && decide (slot ≥ 25)) = true
    · rw [if_pos h11] at h; exact Option.noConfusion h
    rw [if_neg h11] at h
    injection h with h; subst h; rfl
  rw [if_neg h9] at h
  by_cases h12 : name = "SAS Connector"
  · rw [if_pos h12] at h; injection h with h; subst h; rfl
  rw [if_neg h12] at h
  by_cases h13 : name = "SAS Expander"
  · rw [if_pos h13] at h; injection h with h; subst h; rfl
  rw [if_neg h13] at h
  injection h with h; subst h; rfl

/-- C2, amended.  The claim as frozen fails on the code (see the
counterexample): the `else` arm of the walk (line 437) resets only
`element_number`; `element_type` persists until the next element-type
header replaces it.  Amended statement: on a line matching none of the
three recognized shapes, the carried element number is reset to `None`
while the carried element type is left unchanged, and no element is
produced. -/
theorem claim_C2_amended :
    ∀ (encname model : String) (st : WalkState) (line : String),
    matchElementType line = none → matchElementDescriptor line = none →
    matchHexLine line = none →
    parse_step encname model st line =
      .ok (⟨st.element_type, none⟩, none) := by
  intro encname model st line h1 h2 h3
  unfold parse_step
  rw [h1, h2, h3]

/-- C2, counterexample to the claim as frozen: `"garbage"` matches none
of the three shapes, yet after processing it the carried element type is
still `some "Cooling"`, not `None`. -/
theorem claim_C2_counterexample :
    matchElementType "garbage" = none ∧ matchElementDescriptor "garbage" = none ∧
    matchHexLine "garbage" = none ∧
    parse_step "" "" ⟨some "Cooling", some 1⟩ "garbage" =
      .ok (⟨some "Cooling", none⟩, none) ∧
    (some "Cooling" : Option String) ≠ none := by
  refine ⟨rfl, rfl, rfl, rfl, by simp⟩

/-- C2 witness: the amended theorem applied to the state
`(some "Cooling", some 1)` and the unmatched line `"garbage"`. -/
theorem claim_C2_witness :
    matchElementType "garbage" = none ∧ matchElementDescriptor "garbage" = none ∧
    matchHexLine "garbage" = none ∧
    parse_step "E" "M" ⟨some "Cooling", some 1⟩ "garbage" =
      .ok (⟨some "Cooling", none⟩, none) :=
  ⟨rfl, rfl, rfl,
   claim_C2_amended "E" "M" ⟨some "Cooling", some 1⟩ "garbage" rfl rfl rfl⟩

/-- C10: in the generic byte path an element is produced only when the
carried element number is a non-zero integer, and the produced element's
slot is that number plus one; concretely, an `"Element 0 descriptor:"`
line followed by a raw-byte line produces no element even though both
type and number are known. -/
theorem claim_C10 :
    (∀ (encname model : String) (st : WalkState) (line : String)
      (out : WalkState × Option Elem) (e : Elem),
      parse_step encname model st line = .ok out → out.2 = some e →
      ∃ n, st.element_number = some n ∧ n ≠ 0 ∧ e.slot = n + 1) ∧
    parse_status_walk "V" "M" ⟨some "Cooling", none⟩
      ["  Element 0 descriptor:", "  01 02 03 04"] =
        .ok (⟨some "Cooling", none⟩, []) := by
  constructor
  · intro encname model st line out e h hout
    unfold parse_step at h
    split at h
    · cases h
      exact Option.noConfusion hout
    · split at h
      · cases h
        exact Option.noConfusion hout
      · split at h
        · rename_i grp hgrp
          split at h
          · rename_i t n htype hnum
            split at h
            · rename_i hguard
              split at h
              · cases h
                simp only at hout
                exact ⟨n, hnum, hguard.2.1,
                  enclosure_element_slot encname model (n + 1) t _ none "" "" none none e hout⟩
              · exact Except.noConfusion h
            · cases h
              exact Option.noConfusion hout
          · cases h
            exact Option.noConfusion hout
        · cases h
          exact Option.noConfusion hout
  · rfl

/-! ### Slot-control dispatcher (claims C3 and C6) -/

/-- C3, amended.  The claim as frozen fails on the code (see the
counterexample): for the administratively remapped enclosure id
`'mapped_enclosure_0'` the wire address is the element's recorded
*original* slot minus one, not the requested slot minus one.  Amended
statement: on the generic SCSI route the wire address is `r - 1` where
`r` is the resolved original slot — `r = s` for every enclosure id other
than `'mapped_enclosure_0'`, and `r` is the element's `original.slot`
for `'mapped_enclosure_0'` — with `CLEAR` issuing exactly the two
actions clear-identify then clear-fault and `FAULT`/`IDENTIFY` exactly
one corresponding set action. -/
theorem claim_C3_amended :
    ∀ (enclosure_id : String) (slot : Int) (status : SlotState)
      (queryResult : List EncInfo) (toggleMissing : String → String → Bool)
      (info : EncInfo) (j : SlotEntry),
    enclosure_id ≠ "r30_nvme_enclosure" → enclosure_id ≠ "f60_nvme_enclosure" →
    enclosure_id ≠ "f100_nvme_enclosure" → enclosure_id ≠ "f130_nvme_enclosure" →
    (queryResult.filter (fun i => i.id == enclosure_id)).head? = some info →
    info.model ≠ "H Series" →
    findADSEntry slot info.elements = some j →
    ((enclosure_id ≠ "mapped_enclosure_0" →
      set_slot_status enclosure_id slot status queryResult toggleMissing =
        .ok (.scsi info.bsg (statusActions status (slot - 1)))) ∧
     (∀ o, j.original = some o → enclosure_id = "mapped_enclosure_0" →
      set_slot_status enclosure_id slot status queryResult toggleMissing =
        .ok (.scsi o.enclosure_bsg (statusActions status (o.slot - 1)))) ∧
     statusActions .CLEAR (slot - 1) =
       [(slot - 1, "clear=ident"), (slot - 1, "clear=fault")] ∧
     statusActions .FAULT (slot - 1) = [(slot - 1, "set=fault")] ∧
     statusActions .IDENTIFY (slot - 1) = [(slot - 1, "set=ident")]) := by
  intro eid slot status q tg info j h1 h2 h3 h4 hq hm hf
  refine ⟨?_, ?_, rfl, rfl, rfl⟩
  · intro hne
    simp [set_slot_status, get_orig_enclosure_and_disk, h1, h2, h3, h4, hq, hm, hf, hne]
  · intro o ho he
    subst he
    simp [set_slot_status, get_orig_enclosure_and_disk, hq, hm, hf, ho]

/-- C3, counterexample to the claim as frozen: on the
non-NVMe, non-H-Series enclosure `'mapped_enclosure_0'` a `CLEAR` of
logical slot 5 whose element records original slot 7 issues its two
actions addressed to wire slot 6, not `5 - 1 = 4`. -/
theorem claim_C3_counterexample :
    set_slot_status "mapped_enclosure_0" 5 .CLEAR
      [⟨"mapped_enclosure_0", "bsg/0:0:0:0", "R20",
        [⟨"Array Device Slot", [⟨5, some ⟨"sg7", 7⟩⟩]⟩]⟩] (fun _ _ => false) =
      .ok (.scsi "sg7" [(6, "clear=ident"), (6, "clear=fault")]) ∧
    (6 : Int) ≠ 5 - 1 :=
  ⟨rfl, by decide⟩

/-- C3 witness: the amended theorem applied to a generic enclosure
`"abc"` with resolvable slot 5; `CLEAR` issues exactly the two clear
actions addressed to wire slot 4. -/
theorem claim_C3_witness :
    set_slot_status "abc" 5 .CLEAR
      [⟨"abc", "bsg/0:0:0:0", "M Series", [⟨"Array Device Slot", [⟨5, none⟩]⟩]⟩]
      (fun _ _ => false) =
      .ok (.scsi "bsg/0:0:0:0" (statusActions .CLEAR (5 - 1))) ∧
    statusActions .CLEAR ((5 : Int) - 1) = [(4, "clear=ident"), (4, "clear=fault")] :=
  ⟨(claim_C3_amended "abc" 5 .CLEAR
      [⟨"abc", "bsg/0:0:0:0", "M Series", [⟨"Array Device Slot", [⟨5, none⟩]⟩]⟩]
      (fun _ _ => false)
      ⟨"abc", "bsg/0:0:0:0", "M Series", [⟨"Array Device Slot", [⟨5, none⟩]⟩]⟩
      ⟨5, none⟩ (by decide) (by decide) (by decide) (by decide) rfl (by decide) rfl).1
      (by decide),
   by decide⟩

/-- C6, amended.  The claim as frozen fails on the code (see the
counterexample): the `sysfs_to_ui` index table has twelve entries
(physical bays 1-12), not fifteen.  Amended statement: on an H-Series
enclosure the logical slot is translated through the fixed twelve-entry
table; a slot absent from the table yields a not-found error, and a
`FileNotFoundError` from the sysfs toggle also surfaces as the same
not-found error. -/
theorem claim_C6_amended :
    ∀ (enclosure_id : String) (slot : Int) (status : SlotState)
      (queryResult : List EncInfo) (toggleMissing : String → String → Bool)
      (info : EncInfo),
    enclosure_id ≠ "r30_nvme_enclosure" → enclosure_id ≠ "f60_nvme_enclosure" →
    enclosure_id ≠ "f100_nvme_enclosure" → enclosure_id ≠ "f130_nvme_enclosure" →
    (queryResult.filter (fun i => i.id == enclosure_id)).head? = some info →
    info.model = "H Series" →
    (sysfs_to_ui.length = 12 ∧
     (List.lookup slot sysfs_to_ui = none →
       set_slot_status enclosure_id slot status queryResult toggleMissing =
         .error (.slotNotFound slot)) ∧
     (∀ mapped, List.lookup slot sysfs_to_ui = some mapped →
       (toggleMissing ("/sys/class/enclosure/" ++ removePfx info.bsg "bsg/") mapped = true →
         set_slot_status enclosure_id slot status queryResult toggleMissing =
           .error (.slotNotFound slot)) ∧
       (toggleMissing ("/sys/class/enclosure/" ++ removePfx info.bsg "bsg/") mapped = false →
         set_slot_status enclosure_id slot status queryResult toggleMissing =
           .ok (.hseries ("/sys/class/enclosure/" ++ removePfx info.bsg "bsg/")
             mapped status)))) := by
  intro eid slot status q tg info h1 h2 h3 h4 hq hm
  refine ⟨rfl, ?_, ?_⟩
  · intro hl
    simp [set_slot_status, h1, h2, h3, h4, hq, hm, hl]
  · intro mapped hl
    constructor
    · intro ht
      simp [set_slot_status, h1, h2, h3, h4, hq, hm, hl, ht]
    · intro ht
      simp [set_slot_status, h1, h2, h3, h4, hq, hm, hl, ht]

/-- C6, counterexample to the claim as frozen: the table has twelve
entries, not fifteen; slot 13 is unmapped and yields the not-found
error. -/
theorem claim_C6_counterexample :
    sysfs_to_ui.length = 12 ∧ sysfs_to_ui.length ≠ 15 ∧
    set_slot_status "h1" 13 .IDENTIFY
      [⟨"h1", "bsg/2:0:0:0", "H Series", []⟩] (fun _ _ => false) =
      .error (.slotNotFound 13) :=
  ⟨rfl, by decide, rfl⟩

/-- C6 witness: the amended theorem applied to an H-Series enclosure at
slot 3, which the table maps to sysfs ordinal `"10"`. -/
theorem claim_C6_witness :
    List.lookup (3 : Int) sysfs_to_ui = some "10" ∧
    set_slot_status "h1" 3 .IDENTIFY [⟨"h1", "bsg/2:0:0:0", "H Series", []⟩]
      (fun _ _ => false) =
      .ok (.hseries ("/sys/class/enclosure/" ++ removePfx "bsg/2:0:0:0" "bsg/")
        "10" .IDENTIFY) :=
  ⟨rfl,
   ((claim_C6_amended "h1" 3 .IDENTIFY [⟨"h1", "bsg/2:0:0:0", "H Series", []⟩]
      (fun _ _ => false) ⟨"h1", "bsg/2:0:0:0", "H Series", []⟩
      (by decide) (by decide) (by decide) (by decide) rfl rfl).2.2 "10" rfl).2 rfl⟩

/-! ### Raw-value packing (claim C4) -/

/-- Disjoint-range bitwise or is addition: if `x` is zero below bit `k`
and `y` lies entirely below bit `k`, then `x ||| y = x + y`. -/
theorem lor_eq_add_of_disjoint {x y k : Nat} (hx : x % 2 ^ k = 0) (hy : y < 2 ^ k) :
    x ||| y = x + y := by
  have hq : x = 2 ^ k * (x / 2 ^ k) := by
    have := Nat.div_add_mod x (2 ^ k)
    omega
  apply Nat.eq_of_testBit_eq
  intro i
  have hxbit : x.testBit i = if i < k then false else (x / 2 ^ k).testBit (i - k) := by
    conv_lhs => rw [hq, show 2 ^ k * (x / 2 ^ k) = 2 ^ k * (x / 2 ^ k) + 0 by omega]
    rw [Nat.testBit_mul_pow_two_add _ (Nat.two_pow_pos k) i]
    simp [Nat.zero_testBit]
  have hsum : (x + y).testBit i = if i < k then y.testBit i else (x / 2 ^ k).testBit (i - k) := by
    conv_lhs => rw [hq]
    rw [Nat.testBit_mul_pow_two_add _ hy i]
  rw [Nat.testBit_lor, hxbit, hsum]
  by_cases hik : i < k
  · simp [hik]
  · have hyf : y.testBit i = false :=
      Nat.testBit_lt_two_pow
        (lt_of_lt_of_le hy (Nat.pow_le_pow_right (by norm_num) (le_of_not_lt hik)))
    simp [hik, hyf]

theorem extractByte_eq (raw i : Nat) :
    extractByte raw i = raw / 2 ^ ((2 * (3 - i)) * 4) % 256 := by
  unfold extractByte
  rw [Nat.shiftRight_eq_div_pow, show (0xff : Nat) = 2 ^ 8 - 1 by norm_num,
    Nat.and_pow_two_sub_one_eq_mod]

/-- C4: for every sequence of up to 4 byte values the packing
`byte[i] << (2*(3-i))*4` succeeds deterministically, fits a 32-bit word,
and extracting byte `i` via `(raw_value >> (2*(3-i))*4) & 0xff`
round-trips exactly when every input byte is in `0..255`. -/
theorem claim_C4 :
    ∀ (l : List Nat), l.length ≤ 4 → (∀ x ∈ l, x < 256) →
    ∃ n, parse_raw_value l = some n ∧ n < 2 ^ 32 ∧
      ∀ i, (hi : i < l.length) → extractByte n i = l.get ⟨i, hi⟩ := by
  intro l hlen hb
  match l with
  | [] =>
    exact ⟨0, rfl, by norm_num, by intro i hi; simp at hi⟩
  | [a] =>
    have ha : a < 256 := hb a (by simp)
    refine ⟨a * 16777216, ?_, by omega, ?_⟩
    · unfold parse_raw_value
      norm_num [parseRawValueAux, Nat.shiftLeft_eq, Nat.zero_or]
    · intro i hi
      simp only [List.length_cons, List.length_nil] at hi
      interval_cases i
      · rw [extractByte_eq]; norm_num [List.get]; omega
  | [a, b] =>
    have ha : a < 256 := hb a (by simp)
    have hb' : b < 256 := hb b (by simp)
    refine ⟨a * 16777216 + b * 65536, ?_, by omega, ?_⟩
    · unfold parse_raw_value
      norm_num [parseRawValueAux, Nat.shiftLeft_eq, Nat.zero_or]
      rw [lor_eq_add_of_disjoint (x := a * 16777216) (y := b * 65536) (k := 24)
        (by omega) (by omega)]
    · intro i hi
      simp only [List.length_cons, List.length_nil] at hi
      interval_cases i
      · rw [extractByte_eq]; norm_num [List.get]; omega
      · rw [extractByte_eq]; norm_num [List.get]; omega
  | [a, b, c] =>
    have ha : a < 256 := hb a (by simp)
    have hb' : b < 256 := hb b (by simp)
    have hc : c < 256 := hb c (by simp)
    refine ⟨a * 16777216 + b * 65536 + c * 256, ?_, by omega, ?_⟩
    · unfold parse_raw_value
      norm_num [parseRawValueAux, Nat.shiftLeft_eq, Nat.zero_or]
      rw [lor_eq_add_of_disjoint (x := a * 16777216) (y := b * 65536) (k := 24)
        (by omega) (by omega),
        lor_eq_add_of_disjoint (x := a * 16777216 + b * 65536) (y := c * 256) (k := 16)
        (by omega) (by omega)]
    · intro i hi
      simp only [List.length_cons, List.length_nil] at hi
      interval_cases i
      · rw [extractByte_eq]; norm_num [List.get]; omega
      · rw [extractByte_eq]; norm_num [List.get]; omega
      · rw [extractByte_eq]; norm_num [List.get]; omega
  | [a, b, c, d] =>
    have ha : a < 256 := hb a (by simp)
    have hb' : b < 256 := hb b (by simp)
    have hc : c < 256 := hb c (by simp)
    have hd : d < 256 := hb d (by simp)
    refine ⟨a * 16777216 + b * 65536 + c * 256 + d, ?_, by omega, ?_⟩
    · unfold parse_raw_value
      norm_num [parseRawValueAux, Nat.shiftLeft_eq, Nat.zero_or]
      rw [lor_eq_add_of_disjoint (x := a * 16777216) (y := b * 65536) (k := 24)
        (by omega) (by omega),
        lor_eq_add_of_disjoint (x := a * 16777216 + b * 65536) (y := c * 256) (k := 16)
        (by omega) (by omega),
        lor_eq_add_of_disjoint (x := a * 16777216 + b * 65536 + c * 256) (y := d) (k := 8)
        (by omega) (by omega)]
    · intro i hi
      simp only [List.length_cons, List.length_nil] at hi
      interval_cases i
      · rw [extractByte_eq]; norm_num [List.get]; omega
      · rw [extractByte_eq]; norm_num [List.get]; omega
      · rw [extractByte_eq]; norm_num [List.get]; omega
      · rw [extractByte_eq]; norm_num [List.get]; omega
  | _ :: _ :: _ :: _ :: _ :: _ =>
    simp at hlen

/-- C4 witness: the round-trip theorem applied to `[1, 2, 3, 4]`. -/
theorem claim_C4_witness :
    ([1, 2, 3, 4] : List Nat).length ≤ 4 ∧ (∀ x ∈ ([1, 2, 3, 4] : List Nat), x < 256) ∧
    ∃ n, parse_raw_value [1, 2, 3, 4] = some n ∧ n < 2 ^ 32 ∧
      ∀ i, (hi : i < ([1, 2, 3, 4] : List Nat).length) →
        extractByte n i = ([1, 2, 3, 4] : List Nat).get ⟨i, hi⟩ :=
  ⟨by decide, by decide, claim_C4 [1, 2, 3, 4] (by decide) (by decide)⟩

/-- C10 witness: a hex-byte line processed with carried state
`(some "Cooling", some 2)` produces an element with slot `3 = 2 + 1`. -/
theorem claim_C10_witness :
    parse_step "V" "M" ⟨some "Cooling", some 2⟩ "  01 02 03 04" =
      .ok (⟨some "Cooling", none⟩,
        some ⟨"Cooling", 3, .int 16909060, "", "", none, none⟩) ∧
    ∃ n, (⟨some "Cooling", some 2⟩ : WalkState).element_number = some n ∧ n ≠ 0 ∧
      (⟨"Cooling", 3, .int 16909060, "", "", none, none⟩ : Elem).slot = n + 1 :=
  ⟨rfl,
   claim_C10.1 "V" "M" ⟨some "Cooling", some 2⟩ "  01 02 03 04"
     (⟨some "Cooling", none⟩, some ⟨"Cooling", 3, .int 16909060, "", "", none, none⟩)
     ⟨"Cooling", 3, .int 16909060, "", "", none, none⟩ rfl rfl⟩

/-! ### Slot-mapping reconciler (claim C5) -/

theorem lookup_shift {α : Type} : ∀ (mapping : List (Nat × α)) (k : Nat),
    List.lookup (k + 1) (mapping.map (fun p => (p.1 + 1, p.2))) = List.lookup k mapping := by
  intro mapping k
  induction mapping with
  | nil => rfl
  | cons p t ih =>
    simp only [List.map_cons, List.lookup]
    by_cases h : k = p.1
    · subst h
      simp
    · have h1 : (k + 1 == p.1 + 1) = false := by
        simp [beq_eq_false_iff_ne]
        omega
      have h2 : (k == p.1) = false := by
        simp [beq_eq_false_iff_ne, h]
      rw [h1, h2]
      exact ih

theorem orderedInsert_map_succ :
    ∀ (l : List Nat) (a : Nat),
    List.orderedInsert (· ≤ ·) (a + 1) (l.map (· + 1)) =
      (List.orderedInsert (· ≤ ·) a l).map (· + 1) := by
  intro l
  induction l with
  | nil => intro a; rfl
  | cons b t ih =>
    intro a
    simp only [List.map_cons, List.orderedInsert]
    by_cases h : a ≤ b
    · rw [if_pos (by omega : a + 1 ≤ b + 1), if_pos h, List.map_cons, List.map_cons]
    · rw [if_neg (by omega : ¬ a + 1 ≤ b + 1), if_neg h, List.map_cons, ih a]

theorem sortNatKeys_map_succ : ∀ (ks : List Nat),
    sortNatKeys (ks.map (· + 1)) = (sortNatKeys ks).map (· + 1) := by
  intro ks
  unfold sortNatKeys
  induction ks with
  | nil => rfl
  | cons a t ih =>
    simp only [List.map_cons, List.insertionSort]
    rw [ih, orderedInsert_map_succ]

theorem slotElemAt_slot (hs : Bool) (encname model : String)
    (mapping : List (Nat × (String × String × String × String)))
    (diskRaw : List (Nat × List Nat)) (k s : Nat) (e : Elem) :
    slotElemAt hs encname model mapping diskRaw k s = some e → e.slot = s := by
  intro h
  unfold slotElemAt at h
  cases hlk : List.lookup k mapping with
  | none => rw [hlk] at h; exact Option.noConfusion h
  | some val =>
    obtain ⟨disk, sst, idt, flt⟩ := val
    rw [hlk] at h
    cases hs with
    | true =>
      simp only [if_pos rfl] at h
      exact enclosure_element_slot encname model s "Array Device Slot" _ none ""
        disk (some idt) (some flt) e h
    | false =>
      simp only [Bool.false_eq_true, if_neg] at h
      cases hpv : parse_raw_value ((List.lookup s diskRaw).getD [5, 0, 0, 0]) with
      | none => rw [hpv] at h; exact Option.noConfusion h
      | some v =>
        rw [hpv] at h
        exact enclosure_element_slot encname model s "Array Device Slot" _ none ""
          disk none none e h

theorem buildElemsGo_filterMap (hs : Bool) (encname model : String)
    (mapping : List (Nat × (String × String × String × String)))
    (diskRaw : List (Nat × List Nat)) :
    ∀ (ks : List Nat) (elems : List Elem),
    buildElemsGo hs encname model mapping diskRaw ks = some elems →
    elems = ks.filterMap (fun s => slotElemAt hs encname model mapping diskRaw s s) := by
  intro ks
  induction ks with
  | nil =>
    intro elems h
    injection h with h
    subst h
    rfl
  | cons k t ih =>
    intro elems h
    simp only [buildElemsGo] at h
    cases hlk : List.lookup k mapping with
    | none => rw [hlk] at h; exact Option.noConfusion h
    | some val =>
      obtain ⟨disk, sst, idt, flt⟩ := val
      rw [hlk] at h
      cases hs with
      | true =>
        simp only [if_pos rfl] at h
        cases hbt : buildElemsGo true encname model mapping diskRaw t with
        | none => rw [hbt] at h; exact Option.noConfusion h
        | some rest =>
          rw [hbt] at h
          injection h with h
          subst h
          have hfk : slotElemAt true encname model mapping diskRaw k k =
              enclosure_element encname model k "Array Device Slot" (.str sst)
                none "" disk (some idt) (some flt) := by
            simp [slotElemAt, hlk]
          cases hee : enclosure_element encname model k "Array Device Slot" (.str sst)
              none "" disk (some idt) (some flt) with
          | none => simp [List.filterMap_cons, hfk, hee, ih rest hbt]
          | some e' => simp [List.filterMap_cons, hfk, hee, ih rest hbt]
      | false =>
        simp only [Bool.false_eq_true, if_neg] at h
        cases hpv : parse_raw_value ((List.lookup k diskRaw).getD [5, 0, 0, 0]) with
        | none => rw [hpv] at h; exact Option.noConfusion h
        | some v =>
          rw [hpv] at h
          cases hbt : buildElemsGo false encname model mapping diskRaw t with
          | none => rw [hbt] at h; exact Option.noConfusion h
          | some rest =>
            rw [hbt] at h
            injection h with h
            subst h
            have hfk : slotElemAt false encname model mapping diskRaw k k =
                enclosure_element encname model k "Array Device Slot" (.int v)
                  none "" disk none none := by
              simp [slotElemAt, hlk, hpv]
            cases hee : enclosure_element encname model k "Array Device Slot" (.int v)
                none "" disk none none with
            | none => simp [List.filterMap_cons, hfk, hee, ih rest hbt]
            | some e' => simp [List.filterMap_cons, hfk, hee, ih rest hbt]

theorem shifted_keys (mapping : List (Nat × (String × String × String × String))) :
    (mapping.map (fun p => (p.1 + 1, p.2))).map Prod.fst =
      (mapping.map Prod.fst).map (· + 1) := by
  simp [List.map_map]

/-- C5: the raw-entry-to-exposed-slot correspondence of the reconciler.
For a successful run, the produced element list is exactly the sorted
raw OS-reported slot indices mapped through the per-slot constructor —
when the minimum raw index is 0, the element built from the entry with
raw index `k` is exposed at slot `k + 1`; otherwise the element built
from the entry with raw index `k` is exposed at slot `k` unchanged
(and every element `slotElemAt` produces carries exactly the exposed
slot it was built at). -/
theorem claim_C5 :
    ∀ (is_hseries : Bool) (encname model : String) (dirs : List DirEntry)
      (ses : List (Nat × SesElem)) (elems : List Elem),
    map_disks_to_enclosure_slots is_hseries encname model dirs ses = some elems →
    (∀ k s e, slotElemAt is_hseries encname model (collectMapping is_hseries dirs)
        (sesDiskRaw is_hseries ses) k s = some e → e.slot = s) ∧
    (((collectMapping is_hseries dirs).map Prod.fst).min? = some 0 →
      elems = (sortNatKeys ((collectMapping is_hseries dirs).map Prod.fst)).filterMap
        (fun k => slotElemAt is_hseries encname model (collectMapping is_hseries dirs)
          (sesDiskRaw is_hseries ses) k (k + 1))) ∧
    (∀ m, ((collectMapping is_hseries dirs).map Prod.fst).min? = some m → m ≠ 0 →
      elems = (sortNatKeys ((collectMapping is_hseries dirs).map Prod.fst)).filterMap
        (fun k => slotElemAt is_hseries encname model (collectMapping is_hseries dirs)
          (sesDiskRaw is_hseries ses) k k)) := by
  intro hs encname model dirs ses elems h
  simp only [map_disks_to_enclosure_slots] at h
  refine ⟨fun k s e => slotElemAt_slot hs encname model _ _ k s e, ?_, ?_⟩
  · intro hmin
    simp only [hmin, reduceIte] at h
    have h2 := buildElemsGo_filterMap hs encname model _ _ _ _ h
    rw [h2, shifted_keys, sortNatKeys_map_succ, List.filterMap_map]
    have hfun : ((fun s => slotElemAt hs encname model
          ((collectMapping hs dirs).map (fun p => (p.1 + 1, p.2)))
          (sesDiskRaw hs ses) s s) ∘ fun x => x + 1) =
        fun k => slotElemAt hs encname model (collectMapping hs dirs)
          (sesDiskRaw hs ses) k (k + 1) := by
      funext k
      show slotElemAt hs encname model
          ((collectMapping hs dirs).map (fun p => (p.1 + 1, p.2)))
          (sesDiskRaw hs ses) (k + 1) (k + 1) =
        slotElemAt hs encname model (collectMapping hs dirs) (sesDiskRaw hs ses) k (k + 1)
      unfold slotElemAt
      rw [lookup_shift]
    rw [hfun]
  · intro m hmin hm0
    simp only [hmin] at h
    rw [if_neg hm0] at h
    exact buildElemsGo_filterMap hs encname model _ _ _ _ h

/-- C5 witness: two sysfs slot directories reporting raw indices 0 and 1
get exposed as slots 1 and 2 respectively (the minimum raw index is 0):
slot 1 carries entry 0's device `"sda"` and slot 2 entry 1's `"sdb"`. -/
theorem claim_C5_witness :
    map_disks_to_enclosure_slots false "X" "M"
      [⟨"s0", some ⟨0, "OK", "0", "0", "sda"⟩⟩, ⟨"s1", some ⟨1, "OK", "0", "0", "sdb"⟩⟩]
      [] =
      some [⟨"Array Device Slot", 1, .int 83886080, "", "sda", none, none⟩,
        ⟨"Array Device Slot", 2, .int 83886080, "", "sdb", none, none⟩] ∧
    ((collectMapping false
      [⟨"s0", some ⟨0, "OK", "0", "0", "sda"⟩⟩,
        ⟨"s1", some ⟨1, "OK", "0", "0", "sdb"⟩⟩]).map Prod.fst).min? = some 0 ∧
    [(⟨"Array Device Slot", 1, .int 83886080, "", "sda", none, none⟩ : Elem),
        ⟨"Array Device Slot", 2, .int 83886080, "", "sdb", none, none⟩] =
      (sortNatKeys ((collectMapping false
        [⟨"s0", some ⟨0, "OK", "0", "0", "sda"⟩⟩,
          ⟨"s1", some ⟨1, "OK", "0", "0", "sdb"⟩⟩]).map Prod.fst)).filterMap
        (fun k => slotElemAt false "X" "M"
          (collectMapping false
            [⟨"s0", some ⟨0, "OK", "0", "0", "sda"⟩⟩,
              ⟨"s1", some ⟨1, "OK", "0", "0", "sdb"⟩⟩])
          (sesDiskRaw false []) k (k + 1)) ∧
    slotElemAt false "X" "M"
      (collectMapping false
        [⟨"s0", some ⟨0, "OK", "0", "0", "sda"⟩⟩,
          ⟨"s1", some ⟨1, "OK", "0", "0", "sdb"⟩⟩])
      (sesDiskRaw false []) 0 1 =
      some ⟨"Array Device Slot", 1, .int 83886080, "", "sda", none, none⟩ ∧
    (⟨"Array Device Slot", 1, .int 83886080, "", "sda", none, none⟩ : Elem).slot = 1 :=
  ⟨by decide, by decide,
   (claim_C5 false "X" "M"
      [⟨"s0", some ⟨0, "OK", "0", "0", "sda"⟩⟩, ⟨"s1", some ⟨1, "OK", "0", "0", "sdb"⟩⟩]
      [] [⟨"Array Device Slot", 1, .int 83886080, "", "sda", none, none⟩,
        ⟨"Array Device Slot", 2, .int 83886080, "", "sdb", none, none⟩]
      (by decide)).2.1 (by decide),
   by decide,
   (claim_C5 false "X" "M"
      [⟨"s0", some ⟨0, "OK", "0", "0", "sda"⟩⟩, ⟨"s1", some ⟨1, "OK", "0", "0", "sdb"⟩⟩]
      [] [⟨"Array Device Slot", 1, .int 83886080, "", "sda", none, none⟩,
        ⟨"Array Device Slot", 2, .int 83886080, "", "sdb", none, none⟩]
      (by decide)).1 0 1
     ⟨"Array Device Slot", 1, .int 83886080, "", "sda", none, none⟩ (by decide)⟩

/-! ### Model-specific slot exclusions (claim C7) -/

/-- C7, amended.  The claim as frozen fails on the code (see the
counterexample): the second exclusion tests
`self.model.startswith('R50, ')` — the literal prefix `"R50, "` with a
comma and space — so a plain `"R50"` model (which `_set_model` produces
for eDrawer4048 chassis on a TRUENAS-R50 product) is *not* excluded.
Amended statement: on a chassis name starting
`"ECStream 3U16+4R-4X6G.3"` every slot above 16 is silently dropped,
and on a model string starting with the literal `"R50, "` every slot
from 25 up is silently dropped. -/
theorem claim_C7_amended :
    ∀ (encname model : String) (slot : Nat) (value : RawVal) (status : Option String)
      (desc dev : String) (ident fault : Option String),
    (startsWithPy encname "ECStream 3U16+4R-4X6G.3" = true → slot > 16 →
      enclosure_element encname model slot "Array Device Slot" value status desc dev
        ident fault = none) ∧
    (startsWithPy model "R50, " = true → slot ≥ 25 →
      enclosure_element encname model slot "Array Device Slot" value status desc dev
        ident fault = none) := by
  intro encname model slot value status desc dev ident fault
  constructor
  · intro h1 h2
    simp [enclosure_element, h1, h2]
  · intro h1 h2
    simp [enclosure_element, h1, h2]

/-- C7, counterexample to the claim as frozen: an R50-family enclosure
(classified model `"R50"`) does not drop slot 25 — `_enclosure_element`
still returns an ArrayDeviceSlot for it, because `"R50"` does not start
with `"R50, "`. -/
theorem claim_C7_counterexample :
    set_model "iX eDrawer4048S2 0123" "TRUENAS-R50" "" = ("R50", true) ∧
    enclosure_element "iX eDrawer4048S2 0123" "R50" 25 "Array Device Slot" (.int 0)
      none "" "" none none =
      some ⟨"Array Device Slot", 25, .int 0, "", "", none, none⟩ := ⟨rfl, rfl⟩

/-- C7 witness: the amended theorem applied to the legacy 16-bay chassis
at slot 20 and to a literal `"R50, "`-prefixed model at slot 25. -/
theorem claim_C7_witness :
    startsWithPy "ECStream 3U16+4R-4X6G.3 c" "ECStream 3U16+4R-4X6G.3" = true ∧
    enclosure_element "ECStream 3U16+4R-4X6G.3 c" "E16" 20 "Array Device Slot" (.int 0)
      none "" "" none none = none ∧
    startsWithPy "R50, rev2" "R50, " = true ∧
    enclosure_element "X" "R50, rev2" 25 "Array Device Slot" (.int 0)
      none "" "" none none = none :=
  ⟨by decide,
   (claim_C7_amended "ECStream 3U16+4R-4X6G.3 c" "E16" 20 (.int 0) none "" "" none none).1
     (by decide) (by decide),
   by decide,
   (claim_C7_amended "X" "R50, rev2" 25 (.int 0) none "" "" none none).2
     (by decide) (by decide)⟩

/-! ### Model classifier fallback (claim C8) -/

/-- C8: an input matching none of the classification rules leaves the
`__init__` defaults untouched — empty model and `is_controller = false`. -/
theorem claim_C8 :
    ∀ (encname product_name data : String),
    matchesAnyModelRule encname = false →
    set_model encname product_name data = ("", false) := by
  intro e p d h
  simp only [matchesAnyModelRule, Bool.or_eq_false_iff] at h
  obtain ⟨⟨⟨⟨⟨⟨⟨⟨⟨⟨⟨⟨⟨⟨⟨⟨⟨⟨h1, h2⟩, h3⟩, h4⟩, h5⟩, h6⟩, h7⟩, h8⟩, h9⟩, h10⟩,
    h11⟩, h12⟩, h13⟩, h14⟩, h15⟩, h16⟩, h17⟩, h18⟩, h19⟩ := h
  have h5' : e ≠ "AHCI SGPIO Enclosure 2.00" := by simpa using h5
  simp only [set_model, h1, h2, h3, h4, h5', h6, h7, h8, h9, h10, h11, h12, h13, h14,
    h15, h16, h17, h18, h19, Bool.false_eq_true, Bool.or_self, if_false, ite_false,
    if_neg, reduceIte]

/-- C8 witness: a name matching no rule classifies to the empty model
with `is_controller = false`. -/
theorem claim_C8_witness :
    matchesAnyModelRule "Generic Enclosure" = false ∧
    set_model "Generic Enclosure" "TRUENAS-R10" "" = ("", false) :=
  ⟨by decide, claim_C8 "Generic Enclosure" "TRUENAS-R10" "" (by decide)⟩

/-! ### ArrayDeviceSlot identify/fault flags (claim C9) -/

/-- C9, amended.  The claim as frozen fails on the code (see the
counterexample): in string mode the flags test literal inequality with
`'0'`, not numeric non-zeroness, so a string such as `"00"` (which
denotes zero) still yields `true`.  Amended statement: in
operating-system-string mode `identify()`/`fault()` are true iff the
corresponding string differs from the literal `"0"`; in SES-bit mode
`identify()` is bit `0x2` of `raw_value >> 8` and `fault()` is bit
`0x20` of `raw_value`. -/
theorem claim_C9_amended :
    ∀ (slotN : Nat) (vs d dev : String) (s f : String) (n : Nat) (i2 f2 : Option String),
    (ArrayDevSlot.identify ⟨"Array Device Slot", slotN, .str vs, d, dev, some s, some f⟩ = true
      ↔ s ≠ "0") ∧
    (ArrayDevSlot.fault ⟨"Array Device Slot", slotN, .str vs, d, dev, some s, some f⟩ = true
      ↔ f ≠ "0") ∧
    (ArrayDevSlot.identify ⟨"Array Device Slot", slotN, .int n, d, dev, i2, f2⟩ = true
      ↔ (n >>> 8) &&& 0x2 ≠ 0) ∧
    (ArrayDevSlot.fault ⟨"Array Device Slot", slotN, .int n, d, dev, i2, f2⟩ = true
      ↔ n &&& 0x20 ≠ 0) := by
  intro slotN vs d dev s f n i2 f2
  refine ⟨?_, ?_, ?_, ?_⟩ <;>
    simp [ArrayDevSlot.identify, ArrayDevSlot.fault, bne_iff_ne]

/-- C9, counterexample to the claim as frozen: the identify string
`"00"` denotes the value zero, yet `identify()` returns `true` because
the code tests `!= '0'` literally. -/
theorem claim_C9_counterexample :
    ArrayDevSlot.identify ⟨"Array Device Slot", 1, .str "OK", "", "sda", some "00", some "0"⟩
      = true ∧
    denotesNonZeroSpec "00" = false := ⟨rfl, by decide⟩

end Enc
